import Mathlib

/-!
Verification of the photolibrary-api gallery core.

Shallow embedding of the gallery ZIP-download core of the repository:

* `src/services/gallery/gallery-helpers.ts` — `getStudioApiConfig`,
  `callStudioApi`, `fetchImageStream`;
* `src/services/gallery/gallery-service.ts` — `fetchGalleryFromDatabase`,
  `getGalleryPayload`, `getGalleryDownloadPayload`, `streamGalleryDownload`,
  `resolveDownloadFilename`, `extractFilenameFromUrl`, `normalizeFilename`;
* the public route composition in `src/controllers/gallery.controller.ts`
  (`downloadGallery` = payload resolution, then streaming).

I/O is made explicit: HTTP upstreams become oracle values or event lists,
the relational store becomes an explicit table state, promise resolution
becomes return values, and a JavaScript exception escaping a function
becomes `Except.error`.
-/

namespace PhotoLib

/-- Test whether the character list `s` begins with `pat`: the
character-list model of a JavaScript leading-match test. -/
def leadsWith : List Char → List Char → Bool
  | [], _ => true
  | _ :: _, [] => false
  | p :: ps, c :: cs => p == c && leadsWith ps cs

/-- Test whether `s` contains `pat` as a contiguous substring: the model
of JavaScript `String.prototype.includes`. -/
def hasSub (pat : List Char) : List Char → Bool
  | [] => leadsWith pat []
  | c :: cs => leadsWith pat (c :: cs) || hasSub pat cs

/-- String-level model of JS `s.includes(sub)`. -/
def strIncludes (s sub : String) : Bool :=
  hasSub sub.data s.data

/-- Model of JS `s.split(sep)` for a one-character separator: the (always
nonempty) list of `sep`-delimited fields, keeping empty fields. -/
def splitOnChar (sep : Char) : List Char → List (List Char)
  | [] => [[]]
  | c :: cs =>
    let r := splitOnChar sep cs
    if c == sep then [] :: r
    else
      match r with
      | [] => [[c]]
      | h :: t => (c :: h) :: t

/-- Model of JS `String.prototype.trim`: strip leading and trailing
whitespace characters. -/
def trimChars (l : List Char) : List Char :=
  ((l.dropWhile Char.isWhitespace).reverse.dropWhile Char.isWhitespace).reverse

/-- Digit span: splits a character list into its maximal leading run of
decimal digits and the remainder (greedy `\d+`). -/
def digitSpan : List Char → List Char × List Char
  | [] => ([], [])
  | c :: cs =>
    if c.isDigit then
      let (d, r) := digitSpan cs
      (c :: d, r)
    else ([], c :: cs)

/-- At the head of `s`, try to match the regex `\/upload\/v\d+\//` exactly
(literal `/upload/v`, then one or more digits, then `/`); on success return
the characters after the match. -/
def matchUploadV (s : List Char) : Option (List Char) :=
  if leadsWith "/upload/v".data s then
    let t := s.drop 9
    match digitSpan t with
    | ([], _) => none
    | (_ :: _, r) =>
      match r with
      | '/' :: r2 => some r2
      | _ => none
  else none

/-- Replace the first (leftmost) match of `\/upload\/v\d+\//` by `/upload/`,
the model of `url.replace(/\/upload\/v\d+\//, '/upload/')` in
`fetchImageStream` (`gallery-helpers.ts`). A string with no match is
returned unchanged, exactly as in JavaScript. -/
def replaceUploadVersion : List Char → List Char
  | [] => []
  | c :: cs =>
    match matchUploadV (c :: cs) with
    | some rest => "/upload/".data ++ rest
    | none => c :: replaceUploadVersion cs

/-- String-level wrapper for `replaceUploadVersion`. -/
def stripVersion (s : String) : String :=
  ⟨replaceUploadVersion s.data⟩

/-- One upstream answer to one HTTP GET issued by `fetchImageStream`:
either a response with a status code and an optional `Location` header,
or a transport error (the request's `error` event). -/
inductive UpstreamEvent where
  | resp (status : Nat) (location : Option String)
  | netError
deriving DecidableEq

/-- How one call of `fetchImageStream` ends.  The promise in the source
always resolves (every code path calls `resolve`, never `reject`):
`stream` is resolution with the 200 response stream, `notFound` is
resolution with `null`.  `pending` means the supplied upstream event list
was exhausted while the fetcher was still issuing requests — the chain of
recursive calls had not yet resolved. -/
inductive FetchOutcome where
  | stream
  | notFound
  | pending
deriving DecidableEq

/-- JS truthiness of `response.headers.location`: present and non-empty. -/
def locTruthy : Option String → Bool
  | none => false
  | some s => s != ""

/-- Model of `fetchImageStream(url, attempt)` from `gallery-helpers.ts`,
driven by the list of upstream events (one event consumed per HTTP GET
issued).  Returns the outcome together with the number of GETs issued
(events consumed).  Mirrors the source branch for branch:

* 3xx with a truthy `Location`: if `attempt > 3` resolve `null`
  ("Too many redirects"), else recurse on the location with `attempt + 1`;
* 200: resolve the response stream;
* 404 on a URL containing `/upload/v`: recurse on the version-stripped URL
  with `attempt + 1` (note: without consulting the attempt counter);
* anything else (including a transport error): resolve `null`. -/
def fetchImageStream : List UpstreamEvent → String → Nat → FetchOutcome × Nat
  | [], _, _ => (.pending, 0)
  | e :: rest, url, attempt =>
    match e with
    | .netError => (.notFound, 1)
    | .resp status loc =>
      if 300 ≤ status ∧ status < 400 ∧ locTruthy loc = true then
        if attempt > 3 then (.notFound, 1)
        else
          let r := fetchImageStream rest (loc.getD "") (attempt + 1)
          (r.1, r.2 + 1)
      else if status = 200 then (.stream, 1)
      else if status = 404 ∧ strIncludes url "/upload/v" = true then
        let r := fetchImageStream rest (stripVersion url) (attempt + 1)
        (r.1, r.2 + 1)
      else (.notFound, 1)

/-! Data model (`gallery-service.ts` types and rows) -/

/-- The client/gallery attributes (`GalleryClient` in `gallery-service.ts`);
also the shape of a row of the `clients` table. -/
structure GalleryClient where
  id : String
  name : String
  slug : Option String
  event_date : Option String
  subheading : Option String
  status : Option String
  header_media_url : Option String
  header_media_type : Option String
deriving DecidableEq

/-- A photo record (`GalleryPhoto` in `gallery-service.ts`).  `created_at`
is modelled as a numeric timestamp (larger = more recent). -/
structure GalleryPhoto where
  id : Option String
  url : Option String
  filename : Option String
  public_id : Option String
  created_at : Nat
deriving DecidableEq

/-- The remote studio service's gallery payload (`StudioGallery`): the
client attributes plus an optional embedded photo list. -/
structure StudioGallery extends GalleryClient where
  photos : Option (List GalleryPhoto)
deriving DecidableEq

/-- Modelled from the spec: `AppError` (`src/lib/errors.ts`, not under
`src/`), an exception carrying a message and the HTTP status code the
error-translation layer surfaces. -/
structure AppError where
  message : String
  statusCode : Nat
deriving DecidableEq

/-- State of the relational store: the `clients` table and the `photos`
table (each photo row paired with its `client_id`), both in table order. -/
structure DbState where
  clients : List GalleryClient
  photos : List (String × GalleryPhoto)
deriving DecidableEq

/-- Model of `SELECT * FROM clients WHERE slug = $1`: the matching rows in
table order. -/
def queryClientsBySlug (db : DbState) (slug : String) : List GalleryClient :=
  db.clients.filter (fun c => c.slug == some slug)

/-- Model of `SELECT ... FROM photos WHERE client_id = $1` with no
`ORDER BY` clause: the matching rows in table order. -/
def queryPhotosByClient (db : DbState) (cid : String) : List GalleryPhoto :=
  (db.photos.filter (fun p => p.1 == cid)).map (fun p => p.2)

/-- Ordering used by `ORDER BY created_at DESC`: `a` before `b` when `a`'s
timestamp is at least `b`'s (most recent first). -/
def createdDescRel (a b : GalleryPhoto) : Prop :=
  b.created_at ≤ a.created_at

instance : DecidableRel createdDescRel :=
  fun a b => Nat.decLe b.created_at a.created_at

instance : IsTotal GalleryPhoto createdDescRel :=
  ⟨fun a b => Nat.le_total b.created_at a.created_at⟩

instance : IsTrans GalleryPhoto createdDescRel :=
  ⟨fun _ _ _ h1 h2 => Nat.le_trans h2 h1⟩

/-- Model of `SELECT ... FROM photos WHERE client_id = $1 ORDER BY
created_at DESC`: matching rows sorted most-recent-first. -/
def queryPhotosByClientDesc (db : DbState) (cid : String) : List GalleryPhoto :=
  List.insertionSort createdDescRel (queryPhotosByClient db cid)

/-- JS `client.status || 'ACTIVE'`: default when absent or empty. -/
def statusOrActive : Option String → String
  | none => "ACTIVE"
  | some s => if s = "" then "ACTIVE" else s

/-- Model of `fetchGalleryFromDatabase` (`gallery-service.ts`): look up the
client row by slug (404 `AppError` when absent), then the photo rows
ordered by creation time descending. -/
def fetchGalleryFromDatabase (db : DbState) (slug : String) :
    Except AppError StudioGallery :=
  match queryClientsBySlug db slug with
  | [] => .error ⟨"Client not found", 404⟩
  | c :: _ =>
    .ok { id := c.id, name := c.name, slug := c.slug, event_date := c.event_date,
          subheading := c.subheading, status := some (statusOrActive c.status),
          header_media_url := c.header_media_url,
          header_media_type := c.header_media_type,
          photos := some (queryPhotosByClientDesc db c.id) }

/-! The studio API call (`gallery-helpers.ts`) -/

/-- The relevant environment variables (a value of `none` means the
variable is unset; `some ""` is set-but-empty, which JS treats as falsy). -/
structure Env where
  studioApiUrl : Option String
  adminSyncSecret : Option String
deriving DecidableEq

/-- Model of `getStudioApiConfig`: the base URL defaults to
`http://localhost:4000` when `STUDIO_API_URL` is falsy, so the
configuration is `none` exactly when `ADMIN_SYNC_SECRET` is falsy. -/
def getStudioApiConfig (env : Env) : Option (String × String) :=
  let baseUrl := match env.studioApiUrl with
    | none => "http://localhost:4000"
    | some s => if s = "" then "http://localhost:4000" else s
  match env.adminSyncSecret with
  | none => none
  | some s => if s = "" ∨ baseUrl = "" then none else some (baseUrl, s)

/-- One upstream answer to the studio API `fetch`: a status code with the
parsed JSON body (`none` models JSON `null`), or a transport error. -/
inductive HttpResult where
  | resp (status : Nat) (body : Option StudioGallery)
  | netError
deriving DecidableEq

/-- The ways `callStudioApi` can throw. -/
inductive CallErr where
  | configMissing
  | httpError (status : Nat)
  | network
deriving DecidableEq

/-- Model of `callStudioApi(path)` (`gallery-helpers.ts`), driven by the
upstream answer `http`.  Also returns the list of HTTP requests issued, to
make "throws before issuing any HTTP request" expressible.  Branches as in
the source: missing config throws; a 404 returns `null`; a non-ok status
(outside 200–299) throws; otherwise the parsed body is returned. -/
def callStudioApi (env : Env) (path : String) (http : HttpResult) :
    Except CallErr (Option StudioGallery) × List String :=
  match getStudioApiConfig env with
  | none => (.error .configMissing, [])
  | some _ =>
    match http with
    | .netError => (.error .network, [path])
    | .resp status body =>
      if status = 404 then (.ok none, [path])
      else if 200 ≤ status ∧ status ≤ 299 then (.ok body, [path])
      else (.error (.httpError status), [path])

/-! Gallery payload resolution (`gallery-service.ts`) -/

/-- Model of `getGalleryPayload(slug)`: try the studio API; a truthy
result is returned as-is; `null` or any thrown error falls back to the
local database.  The boolean records whether the database was queried. -/
def getGalleryPayload (env : Env) (http : HttpResult) (db : DbState)
    (slug : String) : Except AppError StudioGallery × Bool :=
  match (callStudioApi env ("/api/internal/legacy/gallery/" ++ slug) http).1 with
  | .ok (some g) => (.ok g, false)
  | .ok none => (fetchGalleryFromDatabase db slug, true)
  | .error _ => (fetchGalleryFromDatabase db slug, true)

/-- Model of `getGalleryDownloadPayload(slug)`: remote-first resolution of
the client and photo list (the remote photo list defaults to `[]` when the
payload has none); on remote miss or error, the local `clients` row (404
`AppError` when absent) and the *unordered* photo query; finally the empty
photo list check (400 `AppError`).  The boolean records whether the
database was queried. -/
def getGalleryDownloadPayload (env : Env) (http : HttpResult) (db : DbState)
    (slug : String) : Except AppError (GalleryClient × List GalleryPhoto) × Bool :=
  let resolved : Except AppError (GalleryClient × List GalleryPhoto) × Bool :=
    match (callStudioApi env ("/api/internal/legacy/gallery/" ++ slug) http).1 with
    | .ok (some g) => (.ok (g.toGalleryClient, g.photos.getD []), false)
    | _ =>
      match queryClientsBySlug db slug with
      | [] => (.error ⟨"Gallery not found", 404⟩, true)
      | c :: _ => (.ok (c, queryPhotosByClient db c.id), true)
  match resolved.1 with
  | .error e => (.error e, resolved.2)
  | .ok (c, photos) =>
    if photos.isEmpty then (.error ⟨"No photos to download", 400⟩, resolved.2)
    else (.ok (c, photos), resolved.2)

/-! Filename resolution (`gallery-service.ts`) -/

/-- A hexadecimal digit's value, if any. -/
def hexVal (c : Char) : Option Nat :=
  if '0' ≤ c ∧ c ≤ '9' then some (c.toNat - '0'.toNat)
  else if 'a' ≤ c ∧ c ≤ 'f' then some (c.toNat - 'a'.toNat + 10)
  else if 'A' ≤ c ∧ c ≤ 'F' then some (c.toNat - 'A'.toNat + 10)
  else none

/-- Modelled platform builtin `decodeURIComponent`: each `%HH` escape
(two hex digits required) decodes to the character of that byte, any other
`%` throws (`none`).  Simplification: multi-byte UTF-8 escape sequences
are not reassembled or validated. -/
def percentDecode : List Char → Option (List Char)
  | [] => some []
  | '%' :: c1 :: c2 :: rest =>
    match hexVal c1, hexVal c2 with
    | some h1, some h2 => (percentDecode rest).map (fun l => Char.ofNat (h1 * 16 + h2) :: l)
    | _, _ => none
  | '%' :: _ => none
  | c :: rest => (percentDecode rest).map (fun l => c :: l)

/-- Split around the first occurrence of `pat`: `some (before, after)`,
or `none` when `pat` does not occur. -/
def splitAtSub (pat : List Char) : List Char → Option (List Char × List Char)
  | [] => if pat.isEmpty then some ([], []) else none
  | c :: cs =>
    if leadsWith pat (c :: cs) then some ([], (c :: cs).drop pat.length)
    else
      match splitAtSub pat cs with
      | some (b, a) => some (c :: b, a)
      | none => none

/-- Modelled platform builtin `new URL(u).pathname`, simplified to the
cases this code exercises: the URL must have the form
`<scheme>://<host>[/path...]` with nonempty scheme and host, and the
pathname is the part from the first `/` after the host up to `?` or `#`
(or `/` when there is no path); anything else is a parse failure
(`none`, the constructor throwing). -/
def urlPathname (u : String) : Option String :=
  match splitAtSub "://".data u.data with
  | none => none
  | some (scheme, rest) =>
    if scheme.isEmpty then none
    else
      let host := rest.takeWhile (fun c => c != '/' && c != '?' && c != '#')
      if host.isEmpty then none
      else
        let afterHost := rest.drop host.length
        match afterHost with
        | '/' :: _ => some ⟨afterHost.takeWhile (fun c => c != '?' && c != '#')⟩
        | _ => some "/"

/-- The `catch` arm of `extractFilenameFromUrl`: split off the query
string, take the last `/`-segment, and percent-decode it.  A decode
failure here is *not* caught (the `URIError` escapes), hence
`Except.error`. -/
def naiveSegment (u : String) : Except Unit (Option String) :=
  let sanitized := (splitOnChar '?' u.data).headD []
  match (splitOnChar '/' sanitized).getLast? with
  | none => .ok none
  | some s =>
    if s.isEmpty then .ok none
    else
      match percentDecode s with
      | some d => .ok (some ⟨d⟩)
      | none => .error ()

/-- Model of `extractFilenameFromUrl(url)` (`gallery-service.ts`): falsy
URLs give `null`; otherwise take the URL's pathname's last segment and
percent-decode it; if URL parsing or that decode throws, fall into the
`catch` arm (`naiveSegment`). -/
def extractFilenameFromUrl : Option String → Except Unit (Option String)
  | none => .ok none
  | some u =>
    if u = "" then .ok none
    else
      match urlPathname u with
      | some p =>
        match (splitOnChar '/' p.data).getLast? with
        | none => .ok none
        | some s =>
          if s.isEmpty then .ok none
          else
            match percentDecode s with
            | some d => .ok (some ⟨d⟩)
            | none => naiveSegment u
      | none => naiveSegment u

/-- Model of `normalizeFilename(value)`: falsy values give `null`; a value
that trims to empty gives `null`; otherwise the trimmed value. -/
def normalizeFilename : Option String → Option String
  | none => none
  | some v =>
    if v = "" then none
    else
      let t := trimChars v.data
      if t.isEmpty then none else some (⟨t⟩ : String)

/-- JS `photo.id || 'image'` inside the synthesized fallback name. -/
def fallbackName : Option String → String
  | none => "photo_image.jpg"
  | some i => if i = "" then "photo_image.jpg" else "photo_" ++ i ++ ".jpg"

/-- Model of `resolveDownloadFilename(photo)` (`gallery-service.ts`),
tier by tier: normalized explicit filename; normalized URL-extracted name
(an exception from the extractor propagates); the last `/`-segment of a
truthy `public_id` (or the whole `public_id` when that segment is falsy);
finally `photo_<id or "image">.jpg`. -/
def resolveDownloadFilename (p : GalleryPhoto) : Except Unit String :=
  match normalizeFilename p.filename with
  | some n => .ok n
  | none =>
    match extractFilenameFromUrl p.url with
    | .error e => .error e
    | .ok r =>
      match normalizeFilename r with
      | some n => .ok n
      | none =>
        match p.public_id with
        | none => .ok (fallbackName p.id)
        | some pid =>
          if pid = "" then .ok (fallbackName p.id)
          else
            match (splitOnChar '/' pid.data).getLast? with
            | none => .ok pid
            | some b => .ok (if b.isEmpty then pid else (⟨b⟩ : String))

/-! ZIP archive streaming (`gallery-service.ts`) -/

/-- How a successfully fetched photo stream drains once appended: the
`end` event or an `error` event (both of which `resolve` and continue). -/
inductive StreamEvent where
  | ended
  | errored
deriving DecidableEq

/-- The archive as observed by the response: the attachment filename, the
entry names in append order, and whether `archive.finalize()` was
reached. -/
structure ArchiveResult where
  attachmentName : String
  entries : List String
  finalized : Bool
deriving DecidableEq

/-- JS `c` kept by the regex class `[a-z0-9]` with the `i` flag. -/
def isAlnumCI (c : Char) : Bool :=
  ('a' ≤ c && c ≤ 'z') || ('A' ≤ c && c ≤ 'Z') || ('0' ≤ c && c ≤ '9')

/-- Model of the attachment filename:
`client.name.replace(/[^a-z0-9]/gi, '_') + '_Gallery.zip'`. -/
def attachmentName (client : GalleryClient) : String :=
  ⟨client.name.data.map (fun c => if isAlnumCI c then c else '_')⟩ ++ "_Gallery.zip"

/-- One iteration of the photo loop in `streamGalleryDownload`, driven by
a fetch oracle (`none` = the fetcher resolved `null`; `some ev` = it
resolved a stream which then drains with event `ev`).  A falsy URL is
skipped; the archive entry name is resolved *outside* the inner
`try`/`Promise`, so an exception from `resolveDownloadFilename` escapes
the loop (`Except.error`); a fetched stream is appended exactly once,
whether it later ends or errors. -/
def streamPhoto (fetch : String → Option StreamEvent) (p : GalleryPhoto) :
    Except Unit (List String) :=
  match p.url with
  | none => .ok []
  | some u =>
    if u = "" then .ok []
    else
      match resolveDownloadFilename p with
      | .error e => .error e
      | .ok name =>
        match fetch u with
        | none => .ok []
        | some _ => .ok [name]

/-- The sequential photo loop: entries accumulate in order; the first
escaping exception aborts the rest of the loop. -/
def streamPhotos (fetch : String → Option StreamEvent) :
    List GalleryPhoto → Except Unit (List String)
  | [] => .ok []
  | p :: ps =>
    match streamPhoto fetch p with
    | .error e => .error e
    | .ok es =>
      match streamPhotos fetch ps with
      | .error e => .error e
      | .ok rest => .ok (es ++ rest)

/-- Model of `streamGalleryDownload(client, photos, res)`: set the
attachment name, run the photo loop, and finalize; an exception escaping
the loop aborts the function before `finalize` (`Except.error`). -/
def streamGalleryDownload (fetch : String → Option StreamEvent)
    (client : GalleryClient) (photos : List GalleryPhoto) :
    Except Unit ArchiveResult :=
  match streamPhotos fetch photos with
  | .error e => .error e
  | .ok entries => .ok ⟨attachmentName client, entries, true⟩

/-- Outcome of `GET /gallery/{slug}/download` as composed by the route
handler `downloadGallery` (`gallery.controller.ts`): an error response
translated before any archive exists, a streamed archive, or an abort
after streaming began. -/
inductive RouteResult where
  | errorResponse (e : AppError)
  | archive (a : ArchiveResult)
  | abortedStream
deriving DecidableEq

/-- Model of the `downloadGallery` route handler: resolve the download
payload, then stream it. -/
def downloadGalleryRoute (env : Env) (http : HttpResult) (db : DbState)
    (slug : String) (fetch : String → Option StreamEvent) : RouteResult :=
  match (getGalleryDownloadPayload env http db slug).1 with
  | .error e => .errorResponse e
  | .ok (c, photos) =>
    match streamGalleryDownload fetch c photos with
    | .error _ => .abortedStream
    | .ok a => .archive a


/-! Sample fixtures used in closed statements -/

/-- A fully configured environment. -/
def sampleEnv : Env := ⟨some "http://studio.local", some "secret"⟩

/-- An environment with `ADMIN_SYNC_SECRET` unset. -/
def sampleEnvNoSecret : Env := ⟨some "http://studio.local", none⟩

/-- A sample `clients` row. -/
def sampleClient : GalleryClient :=
  ⟨"c1", "Ann Lee", some "ann-lee", none, none, none, none, none⟩

/-- A sample photo row with the older creation timestamp. -/
def samplePhotoOld : GalleryPhoto := ⟨some "a", some "http://cdn/a.jpg", none, none, 1⟩

/-- A sample photo row with the newer creation timestamp. -/
def samplePhotoNew : GalleryPhoto := ⟨some "b", some "http://cdn/b.jpg", none, none, 2⟩

/-- A database holding `sampleClient` and its two photos, inserted
older-first. -/
def sampleDb : DbState :=
  ⟨[sampleClient], [("c1", samplePhotoOld), ("c1", samplePhotoNew)]⟩

/-- A remote studio gallery payload with one photo. -/
def sampleRemoteGallery : StudioGallery :=
  ⟨⟨"r1", "Remote", some "ann-lee", none, none, some "ACTIVE", none, none⟩,
    some [samplePhotoNew]⟩

/-- A remote studio gallery payload with an empty photo list. -/
def emptyRemoteGallery : StudioGallery :=
  ⟨⟨"r1", "Remote", some "ann-lee", none, none, some "ACTIVE", none, none⟩, some []⟩

/-- A photo whose URL makes percent-decoding of the last path segment
fail (a lone `%`), with no explicit filename. -/
def badDecodePhoto : GalleryPhoto := ⟨some "bad", some "https://x/a%", none, none, 2⟩

/-! Helper lemmas -/

/-- A 3xx response with a truthy location is followed while the attempt
counter has not exceeded 3. -/
theorem fetch_redirect_follow (s : Nat) (l url : String) (rest : List UpstreamEvent)
    (attempt : Nat) (ha : 300 ≤ s) (hb : s < 400) (hl : l ≠ "") (hle : ¬ attempt > 3) :
    fetchImageStream (.resp s (some l) :: rest) url attempt
      = ((fetchImageStream rest l (attempt + 1)).1,
         (fetchImageStream rest l (attempt + 1)).2 + 1) := by
  have t : locTruthy (some l) = true := by simp [locTruthy, hl]
  simp only [fetchImageStream]
  rw [if_pos ⟨ha, hb, t⟩, if_neg hle]
  rfl

/-- A 3xx response with a truthy location resolves `null` once the attempt
counter exceeds 3. -/
theorem fetch_redirect_stop (s : Nat) (l url : String) (rest : List UpstreamEvent)
    (attempt : Nat) (ha : 300 ≤ s) (hb : s < 400) (hl : l ≠ "") (hgt : attempt > 3) :
    fetchImageStream (.resp s (some l) :: rest) url attempt = (.notFound, 1) := by
  have t : locTruthy (some l) = true := by simp [locTruthy, hl]
  simp only [fetchImageStream]
  rw [if_pos ⟨ha, hb, t⟩, if_pos hgt]

/-! Claim theorems -/

/-- C1: the claim says every retrieval is bounded to at most 3
redirect/retry hops combined, the 404 version-strip retry falling under
the same budget, so the fetcher terminates for every upstream response
sequence.  The code checks the attempt counter only in the redirect
branch: at the URL `http://h/upload/video.jpg` (which contains
`/upload/v` but has no `/upload/v<digits>/` segment, so version-stripping
leaves it unchanged), a sequence of `n` HTTP 404 responses makes the
fetcher issue `n` requests and still be running afterwards — for every
`n`, exceeding any hop budget and never resolving on an all-404 upstream. -/
theorem fetchImageStream_version_retry_unbounded (n attempt : Nat) :
    fetchImageStream (List.replicate n (.resp 404 none))
      "http://h/upload/video.jpg" attempt = (.pending, n) := by
  induction n generalizing attempt with
  | zero => rfl
  | succ n ih =>
    have hinc : strIncludes "http://h/upload/video.jpg" "/upload/v" = true := by decide
    have hstrip : stripVersion "http://h/upload/video.jpg"
        = "http://h/upload/video.jpg" := by decide
    simp only [List.replicate, fetchImageStream]
    rw [if_neg (by decide), if_neg (by decide), if_pos (by simp [hinc]), hstrip, ih]

/-- C8: a fetch whose upstream sends 3xx responses with truthy `Location`
headers follows at most 3 redirect hops: starting from attempt 1, the
first three redirects are followed and the fourth redirect response makes
the fetch resolve not-found (4 requests issued in total), whatever
responses would have followed — so any redirect chain longer than 3 hops,
including an infinite loop, yields not-found. -/
theorem fetchImageStream_redirect_budget
    (s1 s2 s3 s4 : Nat) (l1 l2 l3 l4 url : String) (rest : List UpstreamEvent)
    (h1a : 300 ≤ s1) (h1b : s1 < 400) (h2a : 300 ≤ s2) (h2b : s2 < 400)
    (h3a : 300 ≤ s3) (h3b : s3 < 400) (h4a : 300 ≤ s4) (h4b : s4 < 400)
    (hl1 : l1 ≠ "") (hl2 : l2 ≠ "") (hl3 : l3 ≠ "") (hl4 : l4 ≠ "") :
    fetchImageStream
      (.resp s1 (some l1) :: .resp s2 (some l2) :: .resp s3 (some l3) ::
        .resp s4 (some l4) :: rest) url 1 = (.notFound, 4) := by
  rw [fetch_redirect_follow s1 l1 url _ 1 h1a h1b hl1 (by decide),
      fetch_redirect_follow s2 l2 l1 _ 2 h2a h2b hl2 (by decide),
      fetch_redirect_follow s3 l3 l2 _ 3 h3a h3b hl3 (by decide),
      fetch_redirect_stop s4 l4 l3 _ 4 h4a h4b hl4 (by decide)]

/-- Witness for C8: a concrete 4-redirect chain resolves not-found after
4 requests. -/
theorem fetchImageStream_redirect_budget_witness :
    fetchImageStream
      [.resp 301 (some "u2"), .resp 302 (some "u3"), .resp 303 (some "u4"),
        .resp 307 (some "u5"), .resp 200 none] "u1" 1 = (.notFound, 4) :=
  fetchImageStream_redirect_budget 301 302 303 307 "u2" "u3" "u4" "u5" "u1" _
    (by decide) (by decide) (by decide) (by decide) (by decide) (by decide)
    (by decide) (by decide) (by decide) (by decide) (by decide) (by decide)

/-- C9: on HTTP 404 at a URL containing the substring `/upload/v`, the
fetch is retried at the URL with the first `/upload/v<digits>/` segment
replaced by `/upload/` (the next request of the chain targets exactly
`stripVersion url`); on 404 at a URL without that substring, the fetch
resolves not-found with no further request; and version stripping does
rewrite `/upload/v123/` to `/upload/`. -/
theorem fetchImageStream_404_version_retry (url : String) (loc : Option String)
    (rest : List UpstreamEvent) (attempt : Nat) :
    (strIncludes url "/upload/v" = true →
      fetchImageStream (.resp 404 loc :: rest) url attempt =
        ((fetchImageStream rest (stripVersion url) (attempt + 1)).1,
         (fetchImageStream rest (stripVersion url) (attempt + 1)).2 + 1)) ∧
    (strIncludes url "/upload/v" = false →
      fetchImageStream (.resp 404 loc :: rest) url attempt = (.notFound, 1)) ∧
    stripVersion "https://h/img/upload/v123/a.jpg" = "https://h/img/upload/a.jpg" := by
  refine ⟨fun h => ?_, fun h => ?_, by decide⟩
  · simp only [fetchImageStream]
    rw [if_neg (by simp), if_neg (by decide), if_pos (by simp [h])]
  · simp only [fetchImageStream]
    rw [if_neg (by simp), if_neg (by decide), if_neg (by simp [h])]

/-- Witness for C9: a 404 at a versioned URL is retried at the stripped
URL and succeeds there; a 404 at a plain URL resolves not-found after one
request. -/
theorem fetchImageStream_404_version_retry_witness :
    fetchImageStream [.resp 404 none, .resp 200 none] "https://h/upload/v1/a.jpg" 1
      = (.stream, 2) ∧
    fetchImageStream [.resp 404 none] "https://h/a.jpg" 1 = (.notFound, 1) := by
  constructor
  · rw [(fetchImageStream_404_version_retry "https://h/upload/v1/a.jpg" none
      [.resp 200 none] 1).1 (by decide)]
    decide
  · exact (fetchImageStream_404_version_retry "https://h/a.jpg" none [] 1).2.1 (by decide)

/-- C2: gallery resolution is remote-first with local fallback, for both
`getGalleryPayload` and `getGalleryDownloadPayload`: a remote 404 is
mapped to `null` (no error); a remote `null` result and every thrown
remote error route to the local database query; a successful remote
gallery short-circuits with no database query; and only when the remote
path yields no gallery and the local store has no row does the operation
fail with a 404 `AppError`. -/
theorem gallery_resolution_remote_first (env : Env) (http : HttpResult)
    (db : DbState) (slug : String) :
    (∀ body, getStudioApiConfig env ≠ none →
      (callStudioApi env ("/api/internal/legacy/gallery/" ++ slug) (.resp 404 body)).1
        = .ok none) ∧
    ((callStudioApi env ("/api/internal/legacy/gallery/" ++ slug) http).1 = .ok none →
      getGalleryPayload env http db slug = (fetchGalleryFromDatabase db slug, true) ∧
      (getGalleryDownloadPayload env http db slug).2 = true) ∧
    (∀ e, (callStudioApi env ("/api/internal/legacy/gallery/" ++ slug) http).1 = .error e →
      getGalleryPayload env http db slug = (fetchGalleryFromDatabase db slug, true) ∧
      (getGalleryDownloadPayload env http db slug).2 = true) ∧
    (∀ g, (callStudioApi env ("/api/internal/legacy/gallery/" ++ slug) http).1 = .ok (some g) →
      getGalleryPayload env http db slug = (.ok g, false) ∧
      (getGalleryDownloadPayload env http db slug).2 = false) ∧
    ((∀ g, (callStudioApi env ("/api/internal/legacy/gallery/" ++ slug) http).1 ≠ .ok (some g)) →
      queryClientsBySlug db slug = [] →
      getGalleryPayload env http db slug = (.error ⟨"Client not found", 404⟩, true) ∧
      (getGalleryDownloadPayload env http db slug).1 = .error ⟨"Gallery not found", 404⟩) := by
  refine ⟨?_, ?_, ?_, ?_, ?_⟩
  · intro body hcfg
    rcases hc : getStudioApiConfig env with _ | cfg
    · exact absurd hc hcfg
    · simp [callStudioApi, hc]
  · intro h
    refine ⟨by simp [getGalleryPayload, h], ?_⟩
    simp only [getGalleryDownloadPayload, h]
    rcases queryClientsBySlug db slug with _ | ⟨c, cs⟩
    · rfl
    · simp only []
      split <;> rfl
  · intro e h
    refine ⟨by simp [getGalleryPayload, h], ?_⟩
    simp only [getGalleryDownloadPayload, h]
    rcases queryClientsBySlug db slug with _ | ⟨c, cs⟩
    · rfl
    · simp only []
      split <;> rfl
  · intro g h
    refine ⟨by simp [getGalleryPayload, h], ?_⟩
    simp only [getGalleryDownloadPayload, h]
    split <;> rfl
  · intro hng hdb
    rcases hr : (callStudioApi env ("/api/internal/legacy/gallery/" ++ slug) http).1
      with e | b
    · exact ⟨by simp [getGalleryPayload, hr, fetchGalleryFromDatabase, hdb],
        by simp [getGalleryDownloadPayload, hr, hdb]⟩
    · rcases b with _ | g
      · exact ⟨by simp [getGalleryPayload, hr, fetchGalleryFromDatabase, hdb],
          by simp [getGalleryDownloadPayload, hr, hdb]⟩
      · exact absurd hr (hng g)

/-- Witness for C2 at concrete states: a remote 404 maps to `null`; a
remote 500 falls back to the database; a remote hit short-circuits; a miss
on both sides yields the 404 `AppError`. -/
theorem gallery_resolution_remote_first_witness :
    (callStudioApi sampleEnv "/api/internal/legacy/gallery/ann-lee" (.resp 404 none)).1
      = .ok none ∧
    getGalleryPayload sampleEnv (.resp 500 none) sampleDb "ann-lee"
      = (fetchGalleryFromDatabase sampleDb "ann-lee", true) ∧
    getGalleryPayload sampleEnv (.resp 200 (some sampleRemoteGallery)) sampleDb "ann-lee"
      = (.ok sampleRemoteGallery, false) ∧
    (getGalleryDownloadPayload sampleEnv (.resp 404 none) ⟨[], []⟩ "ann-lee").1
      = .error ⟨"Gallery not found", 404⟩ := by
  refine ⟨(gallery_resolution_remote_first sampleEnv (.resp 404 none) sampleDb "ann-lee").1
      none (by decide), ?_, ?_, ?_⟩
  · exact ((gallery_resolution_remote_first sampleEnv (.resp 500 none) sampleDb "ann-lee").2.2.1
      (.httpError 500) rfl).1
  · exact ((gallery_resolution_remote_first sampleEnv (.resp 200 (some sampleRemoteGallery))
      sampleDb "ann-lee").2.2.2.1 sampleRemoteGallery rfl).1
  · exact ((gallery_resolution_remote_first sampleEnv (.resp 404 none) ⟨[], []⟩ "ann-lee").2.2.2.2
      (fun g h => Option.noConfusion (Except.ok.inj h)) rfl).2

/-- C4: when resolution (remote or local) yields an empty photo list, the
download payload fails with the 400 `AppError` "No photos to download" and
the route produces that error response before any archive value exists,
while `getGalleryPayload` performs no emptiness check and succeeds with an
empty photo list. -/
theorem download_empty_photos_rejected_before_archive (env : Env) (http : HttpResult)
    (db : DbState) (slug : String) (fetch : String → Option StreamEvent) :
    (∀ g, (callStudioApi env ("/api/internal/legacy/gallery/" ++ slug) http).1 = .ok (some g) →
      g.photos.getD [] = [] →
      (getGalleryDownloadPayload env http db slug).1 = .error ⟨"No photos to download", 400⟩ ∧
      downloadGalleryRoute env http db slug fetch
        = .errorResponse ⟨"No photos to download", 400⟩ ∧
      getGalleryPayload env http db slug = (.ok g, false)) ∧
    (∀ c cs, (∀ g, (callStudioApi env ("/api/internal/legacy/gallery/" ++ slug) http).1 ≠ .ok (some g)) →
      queryClientsBySlug db slug = c :: cs → queryPhotosByClient db c.id = [] →
      (getGalleryDownloadPayload env http db slug).1 = .error ⟨"No photos to download", 400⟩ ∧
      downloadGalleryRoute env http db slug fetch
        = .errorResponse ⟨"No photos to download", 400⟩ ∧
      ∃ g', getGalleryPayload env http db slug = (.ok g', true) ∧ g'.photos = some []) := by
  constructor
  · intro g h hempty
    have hdl : (getGalleryDownloadPayload env http db slug).1
        = .error ⟨"No photos to download", 400⟩ := by
      simp [getGalleryDownloadPayload, h, hempty]
    exact ⟨hdl, by simp [downloadGalleryRoute, hdl], by simp [getGalleryPayload, h]⟩
  · intro c cs hng hdb hp
    rcases hr : (callStudioApi env ("/api/internal/legacy/gallery/" ++ slug) http).1
      with e | b
    case ok =>
      rcases b with _ | g
      case some => exact absurd hr (hng g)
      case none =>
      have hdl : (getGalleryDownloadPayload env http db slug).1
          = .error ⟨"No photos to download", 400⟩ := by
        simp [getGalleryDownloadPayload, hr, hdb, hp]
      refine ⟨hdl, by simp [downloadGalleryRoute, hdl], ?_⟩
      refine ⟨⟨⟨c.id, c.name, c.slug, c.event_date, c.subheading,
          some (statusOrActive c.status), c.header_media_url, c.header_media_type⟩,
          some (queryPhotosByClientDesc db c.id)⟩,
        by simp [getGalleryPayload, hr, fetchGalleryFromDatabase, hdb], ?_⟩
      simp [queryPhotosByClientDesc, hp]
    case error =>
      have hdl : (getGalleryDownloadPayload env http db slug).1
          = .error ⟨"No photos to download", 400⟩ := by
        simp [getGalleryDownloadPayload, hr, hdb, hp]
      refine ⟨hdl, by simp [downloadGalleryRoute, hdl], ?_⟩
      refine ⟨⟨⟨c.id, c.name, c.slug, c.event_date, c.subheading,
          some (statusOrActive c.status), c.header_media_url, c.header_media_type⟩,
          some (queryPhotosByClientDesc db c.id)⟩,
        by simp [getGalleryPayload, hr, fetchGalleryFromDatabase, hdb], ?_⟩
      simp [queryPhotosByClientDesc, hp]

/-- Witness for C4: a remote gallery with an empty photo list makes the
download route answer the 400 error with no archive, while the plain
metadata read succeeds. -/
theorem download_empty_photos_rejected_before_archive_witness :
    (getGalleryDownloadPayload sampleEnv (.resp 200 (some emptyRemoteGallery))
        sampleDb "ann-lee").1 = .error ⟨"No photos to download", 400⟩ ∧
    downloadGalleryRoute sampleEnv (.resp 200 (some emptyRemoteGallery)) sampleDb
        "ann-lee" (fun _ => some .ended)
      = .errorResponse ⟨"No photos to download", 400⟩ ∧
    getGalleryPayload sampleEnv (.resp 200 (some emptyRemoteGallery)) sampleDb "ann-lee"
      = (.ok emptyRemoteGallery, false) :=
  (download_empty_photos_rejected_before_archive sampleEnv
    (.resp 200 (some emptyRemoteGallery)) sampleDb "ann-lee" (fun _ => some .ended)).1
    emptyRemoteGallery rfl rfl

/-- C10: with `ADMIN_SYNC_SECRET` unset, `callStudioApi` throws its
config-missing error without issuing any HTTP request, and both gallery
operations resolve via the local database alone, exactly as a remote
failure would: the payload equals the database fallback and the download
payload is determined by the local queries only. -/
theorem missing_config_falls_back_to_db (env : Env) (path : String) (http : HttpResult)
    (db : DbState) (slug : String) (h : env.adminSyncSecret = none) :
    callStudioApi env path http = (.error .configMissing, []) ∧
    getGalleryPayload env http db slug = (fetchGalleryFromDatabase db slug, true) ∧
    (getGalleryDownloadPayload env http db slug).1 =
      (match queryClientsBySlug db slug with
       | [] => .error ⟨"Gallery not found", 404⟩
       | c :: _ =>
         if (queryPhotosByClient db c.id).isEmpty then .error ⟨"No photos to download", 400⟩
         else .ok (c, queryPhotosByClient db c.id)) := by
  have hcfg : getStudioApiConfig env = none := by simp [getStudioApiConfig, h]
  refine ⟨by simp [callStudioApi, hcfg], by simp [getGalleryPayload, callStudioApi, hcfg], ?_⟩
  simp only [getGalleryDownloadPayload, callStudioApi, hcfg]
  rcases queryClientsBySlug db slug with _ | ⟨c, cs⟩
  · rfl
  · simp only []
    split <;> rfl

/-- Witness for C10 at a concrete environment and database: no request is
issued and the public gallery read still succeeds from the database. -/
theorem missing_config_falls_back_to_db_witness :
    callStudioApi sampleEnvNoSecret "/api/internal/legacy/gallery/ann-lee" (.resp 200 none)
      = (.error .configMissing, []) ∧
    getGalleryPayload sampleEnvNoSecret (.resp 200 (some sampleRemoteGallery)) sampleDb "ann-lee"
      = (fetchGalleryFromDatabase sampleDb "ann-lee", true) := by
  refine ⟨(missing_config_falls_back_to_db sampleEnvNoSecret
      "/api/internal/legacy/gallery/ann-lee" (.resp 200 none) sampleDb "ann-lee" rfl).1, ?_⟩
  exact (missing_config_falls_back_to_db sampleEnvNoSecret
      "/api/internal/legacy/gallery/ann-lee" (.resp 200 (some sampleRemoteGallery)) sampleDb
      "ann-lee" rfl).2.1


/-- C5: the claim says `resolveDownloadFilename` is total and never
throws, URL decode failures falling through silently.  In the code, a
decode failure inside the `catch` arm of `extractFilenameFromUrl` is not
caught and the `URIError` escapes: with no explicit filename, a source
URL of `"%"` (URL parsing fails, then decoding `%` in the naive arm
throws) and a URL of `"https://x/a%"` (URL parsing succeeds, decoding the
segment throws, and the `catch` arm throws again) both make the resolver
throw even though lower-priority tiers (`public_id`, `id`) were
available. -/
theorem resolveDownloadFilename_throws_on_decode_failure :
    resolveDownloadFilename ⟨some "42", some "%", none, some "folder/name", 0⟩
      = .error () ∧
    resolveDownloadFilename ⟨some "42", some "https://x/a%", none, some "folder/name", 0⟩
      = .error () :=
  ⟨rfl, rfl⟩

/-- C3: the claim says `streamGalleryDownload` never aborts due to an
individual photo's outcome and always reaches the finalize step.  The
entry name is resolved outside the per-photo `try`, so the `URIError`
thrown by `resolveDownloadFilename` on `badDecodePhoto` (see C5) escapes
the loop: with that photo in the list the whole download aborts with no
finalize, while the same list without it streams and finalizes — an
individual photo's data aborting the operation mid-stream. -/
theorem streamGalleryDownload_aborts_on_resolver_throw :
    streamGalleryDownload (fun _ => some .ended) sampleClient
      [samplePhotoOld, badDecodePhoto, samplePhotoNew] = .error () ∧
    streamGalleryDownload (fun _ => some .ended) sampleClient
      [samplePhotoOld, samplePhotoNew]
      = .ok ⟨"Ann_Lee_Gallery.zip", ["a.jpg", "b.jpg"], true⟩ :=
  ⟨rfl, rfl⟩

/-- C6: the resolver's four priority tiers apply in order — a blank
explicit filename is treated as absent; then the percent-decoded last URL
path segment (via the naive `?`/`/` split when URL parsing fails); then
the last `/`-segment of a truthy `public_id`; then the synthesized
`photo_<id or "image">.jpg` — and on
`{filename: "  ", url: "https://x/y/z.jpg", public_id: "folder/name"}`
the result is `"z.jpg"`. -/
theorem resolveDownloadFilename_priority_tiers :
    (∀ p n, normalizeFilename p.filename = some n →
      resolveDownloadFilename p = .ok n) ∧
    (∀ p r n, normalizeFilename p.filename = none →
      extractFilenameFromUrl p.url = .ok r → normalizeFilename r = some n →
      resolveDownloadFilename p = .ok n) ∧
    (∀ u, u ≠ "" → urlPathname u = none →
      extractFilenameFromUrl (some u) = naiveSegment u) ∧
    (∀ p r pid b, normalizeFilename p.filename = none →
      extractFilenameFromUrl p.url = .ok r → normalizeFilename r = none →
      p.public_id = some pid → pid ≠ "" →
      (splitOnChar '/' pid.data).getLast? = some b → b ≠ [] →
      resolveDownloadFilename p = .ok ⟨b⟩) ∧
    (∀ p r, normalizeFilename p.filename = none →
      extractFilenameFromUrl p.url = .ok r → normalizeFilename r = none →
      (p.public_id = none ∨ p.public_id = some "") →
      resolveDownloadFilename p = .ok (fallbackName p.id)) ∧
    resolveDownloadFilename
      { id := none, url := some "https://x/y/z.jpg", filename := some "  ",
        public_id := some "folder/name", created_at := 0 } = .ok "z.jpg" := by
  refine ⟨?_, ?_, ?_, ?_, ?_, rfl⟩
  · intro p n h
    simp [resolveDownloadFilename, h]
  · intro p r n h1 h2 h3
    simp [resolveDownloadFilename, h1, h2, h3]
  · intro u hu hp
    simp [extractFilenameFromUrl, hu, hp]
  · intro p r pid b h1 h2 h3 h4 h5 h6 h7
    simp [resolveDownloadFilename, h1, h2, h3, h4, h5, h6, h7]
  · intro p r h1 h2 h3 h4
    rcases h4 with h4 | h4 <;> simp [resolveDownloadFilename, h1, h2, h3, h4]

/-- Witness for C6, one concrete input per tier: an explicit filename
wins; a URL segment is used when the explicit name is blank (the claim's
example); a `public_id` segment is used when the URL yields nothing; and
the synthesized name is used when everything is absent. -/
theorem resolveDownloadFilename_priority_tiers_witness :
    resolveDownloadFilename
      { id := none, url := some "https://x/y/z.jpg", filename := some " pic.png ",
        public_id := some "folder/name", created_at := 0 } = .ok "pic.png" ∧
    resolveDownloadFilename
      { id := none, url := some "https://x/y/z.jpg", filename := some "  ",
        public_id := some "folder/name", created_at := 0 } = .ok "z.jpg" ∧
    resolveDownloadFilename
      { id := none, url := some "https://x/y/", filename := none,
        public_id := some "folder/name", created_at := 0 } = .ok "name" ∧
    resolveDownloadFilename
      { id := some "42", url := none, filename := none,
        public_id := none, created_at := 0 } = .ok "photo_42.jpg" := by
  refine ⟨?_, resolveDownloadFilename_priority_tiers.2.2.2.2.2, ?_, ?_⟩
  · exact resolveDownloadFilename_priority_tiers.1
      { id := none, url := some "https://x/y/z.jpg", filename := some " pic.png ",
        public_id := some "folder/name", created_at := 0 } "pic.png" rfl
  · exact resolveDownloadFilename_priority_tiers.2.2.2.1
      { id := none, url := some "https://x/y/", filename := none,
        public_id := some "folder/name", created_at := 0 }
      none "folder/name" "name".data rfl rfl rfl rfl (by decide) (by decide) (by decide)
  · exact resolveDownloadFilename_priority_tiers.2.2.2.2.1
      { id := some "42", url := none, filename := none,
        public_id := none, created_at := 0 }
      none rfl rfl rfl (Or.inl rfl)

/-- C7 counterexample: the claim says the download resolution's fallback
photo list is ordered most-recent-first, but its query has no `ORDER BY`
clause.  On `sampleDb`, whose two photos were inserted older-first, the
download payload returns them in table order — the photo with the older
creation timestamp first — which is not sorted by `createdDescRel`. -/
theorem download_fallback_photos_unordered_cex :
    (getGalleryDownloadPayload sampleEnvNoSecret .netError sampleDb "ann-lee").1
      = .ok (sampleClient, [samplePhotoOld, samplePhotoNew]) ∧
    samplePhotoOld.created_at < samplePhotoNew.created_at ∧
    ¬ List.Sorted createdDescRel [samplePhotoOld, samplePhotoNew] :=
  ⟨rfl, by decide, by decide⟩

/-- C7 as amended: the local-fallback photo list is ordered by creation
time descending in the plain metadata resolution
(`fetchGalleryFromDatabase`, hence `getGalleryPayload`'s fallback), while
the download resolution's fallback returns exactly the unordered
`queryPhotosByClient` result (table order, no ordering guarantee). -/
theorem fallback_photo_order (db : DbState) (slug : String) :
    (∀ g, fetchGalleryFromDatabase db slug = .ok g →
      ∃ l, g.photos = some l ∧ List.Sorted createdDescRel l) ∧
    (∀ env http c cs,
      (∀ g, (callStudioApi env ("/api/internal/legacy/gallery/" ++ slug) http).1
        ≠ .ok (some g)) →
      queryClientsBySlug db slug = c :: cs → queryPhotosByClient db c.id ≠ [] →
      (getGalleryDownloadPayload env http db slug).1
        = .ok (c, queryPhotosByClient db c.id)) := by
  constructor
  · intro g hg
    rcases hq : queryClientsBySlug db slug with _ | ⟨c, cs⟩
    · simp [fetchGalleryFromDatabase, hq] at hg
    · simp only [fetchGalleryFromDatabase, hq] at hg
      have hg2 := Except.ok.inj hg
      refine ⟨queryPhotosByClientDesc db c.id, ?_, ?_⟩
      · rw [← hg2]
      · exact List.sorted_insertionSort createdDescRel _
  · intro env http c cs hng hdb hp
    rcases hr : (callStudioApi env ("/api/internal/legacy/gallery/" ++ slug) http).1
      with e | b
    · simp [getGalleryDownloadPayload, hr, hdb, hp]
    · rcases b with _ | g
      · simp [getGalleryDownloadPayload, hr, hdb, hp]
      · exact absurd hr (hng g)

/-- Witness for the amended C7 on `sampleDb`: the metadata fallback's
photo list is sorted most-recent-first, and the download fallback returns
the unordered query result. -/
theorem fallback_photo_order_witness :
    (∃ l, (⟨⟨"c1", "Ann Lee", some "ann-lee", none, none, some "ACTIVE", none, none⟩,
        some [samplePhotoNew, samplePhotoOld]⟩ : StudioGallery).photos = some l ∧
      List.Sorted createdDescRel l) ∧
    (getGalleryDownloadPayload sampleEnvNoSecret .netError sampleDb "ann-lee").1
      = .ok (sampleClient, queryPhotosByClient sampleDb "c1") := by
  constructor
  · exact (fallback_photo_order sampleDb "ann-lee").1
      ⟨⟨"c1", "Ann Lee", some "ann-lee", none, none, some "ACTIVE", none, none⟩,
        some [samplePhotoNew, samplePhotoOld]⟩ rfl
  · exact (fallback_photo_order sampleDb "ann-lee").2 sampleEnvNoSecret .netError
      sampleClient [] (fun g h => Except.noConfusion h) rfl (by decide)

end PhotoLib
